import Mathlib

/-
Formal model of the stream-weaver client's state-synchronization core.

Each definition is a shallow embedding of one function of the repository:

* reaction toggling: src/src/pages/WatchPage.tsx (handleReaction),
  src/src/components/video/CommentSection.tsx (handleCommentReaction),
  src/unnamed/part_000 (handleReaction on comments);
* throttled progress reporting: src/unnamed/part_003 (onTime, handleSeek);
* cursor pagination: src/unnamed/part_007 (fetchMoreVideos and the
  intersection-observer caller), src/src/components/video/CommentSection.tsx
  (fetchComments / handleLoadMore);
* merged subscription feed: src/src/pages/SubscriptionsPage.tsx (fetchData and
  the load-more effect).

JavaScript numbers holding counters are modelled as Int (the code never
clamps), item identities and timestamps as Nat, and the remote gateway as an
explicit function argument (a page fetch, or a Bool success flag plus the
authoritative state a re-fetch would return).
-/

namespace StreamWeaver

/-- ReactionType mirrors the TS union 'like' | 'dislike' | 'none'
(src/src/lib/models.ts). -/
inductive ReactionType where
  | like
  | dislike
  | none
deriving DecidableEq

/-- ReactionKind mirrors the narrower argument type 'like' | 'dislike' taken by
the reaction handlers. -/
inductive ReactionKind where
  | like
  | dislike
deriving DecidableEq

/-- Injection of the handler argument into ReactionType, as TS implicitly
treats the string 'like' at both types. -/
def ReactionKind.toReactionType : ReactionKind → ReactionType
  | ReactionKind.like => ReactionType.like
  | ReactionKind.dislike => ReactionType.dislike

/-- Toggle rule computed identically at WatchPage.tsx line 94
(userReaction === type ? 'none' : type), CommentSection.tsx line 100 and
part_000 line 113. -/
def nextReaction (current : ReactionType) (type : ReactionKind) : ReactionType :=
  if current = type.toReactionType then ReactionType.none else type.toReactionType

/-- CommentWithExtras: the fields of the comment objects that the reaction
logic touches (CommentSection.tsx lines 23-26). -/
structure CommentWithExtras where
  comment_id : Nat
  like_count : Int
  dislike_count : Int
  userReaction : ReactionType
deriving DecidableEq

/-- Optimistic counter update applied to one comment: the body of the
setComments map in CommentSection.tsx lines 103-113 (same code at part_000
lines 115-127): decrement the counter of the vacated reaction, increment the
counter of the entered one, store the new userReaction. -/
def applyReactionDelta (c : CommentWithExtras) (type : ReactionKind) : CommentWithExtras :=
  let prev := c.userReaction
  let next := nextReaction prev type
  let like1 := if prev = ReactionType.like then c.like_count - 1 else c.like_count
  let dislike1 := if prev = ReactionType.dislike then c.dislike_count - 1 else c.dislike_count
  let like2 := if next = ReactionType.like then like1 + 1 else like1
  let dislike2 := if next = ReactionType.dislike then dislike1 + 1 else dislike1
  { c with userReaction := next, like_count := like2, dislike_count := dislike2 }

/-- Local comments state at the moment the remote setReaction call is issued:
handleCommentReaction runs the setComments updater (lines 103-113) before the
await at line 116, so the delta is already applied to the matching comment. -/
def handleCommentReactionOptimistic (comments : List CommentWithExtras) (commentId : Nat)
    (type : ReactionKind) : List CommentWithExtras :=
  comments.map fun c => if c.comment_id = commentId then applyReactionDelta c type else c

/-- Final local comments state once the remote call settles
(CommentSection.tsx lines 115-121): on success the optimistic state stands; on
failure the catch runs fetchComments(0, true) (part_000 resetAndFetch), whose
outcome is the Option argument: Option.some delivers the authoritative list
(setComments enriched with isInitial, line 76), while Option.none covers the
recovery fetch failing itself (its catch at lines 77-78 leaves the comments
state untouched) or returning early behind the isLoading guard (line 51) - in
both of those paths the already-applied optimistic list stays in place. -/
def handleCommentReactionFinal (comments : List CommentWithExtras) (commentId : Nat)
    (type : ReactionKind) (remoteOk : Bool)
    (refetch : Option (List CommentWithExtras)) : List CommentWithExtras :=
  if remoteOk then handleCommentReactionOptimistic comments commentId type
  else
    match refetch with
    | Option.some refetched => refetched
    | Option.none => handleCommentReactionOptimistic comments commentId type

/-- View-model of a video's reaction data on WatchPage: the userReaction state
plus the displayed counters of the video object. -/
structure VideoReactionState where
  userReaction : ReactionType
  like_count : Int
  dislike_count : Int
deriving DecidableEq

/-- Local video state at the moment the remote setReaction call is issued:
between computing newReaction (WatchPage.tsx line 94) and the await at line
97 no setState runs, so the local state is still the pre-toggle one. -/
def handleReactionPending (s : VideoReactionState) (type : ReactionKind) : VideoReactionState :=
  s

/-- Final video state once the remote call settles (WatchPage.tsx lines
96-105): on success userReaction becomes newReaction and the counters are
replaced by a re-fetched video detail; on failure the catch only shows a toast
and the state keeps its pre-toggle value. -/
def handleReactionFinal (s : VideoReactionState) (type : ReactionKind) (remoteOk : Bool)
    (refreshed : VideoReactionState) : VideoReactionState :=
  if remoteOk then { refreshed with userReaction := nextReaction s.userReaction type } else s

/-- Modelled from the spec: the counter delta of section 4.1, written from the
spec's words (decrement the counter of the reaction being vacated, increment
the counter of the reaction being entered), for comparison with the code's
applyReactionDelta and handleReactionPending. -/
def specCounterDelta (current next : ReactionType) (likeCount dislikeCount : Int) : Int × Int :=
  (likeCount - (if current = ReactionType.like then 1 else 0)
      + (if next = ReactionType.like then 1 else 0),
    dislikeCount - (if current = ReactionType.dislike then 1 else 0)
      + (if next = ReactionType.dislike then 1 else 0))

/-- Throttled progress tick from part_003 lines 282-287: emit a remote write
only when the distance to the last reported position exceeds 5 seconds, and
reset the tracked position on emission. The pair returned is (emitted, new
lastReportedTime). -/
def onTime (lastReportedTime : Int) (currentTime : Int) : Bool × Int :=
  if 5 < |currentTime - lastReportedTime| then (true, currentTime)
  else (false, lastReportedTime)

/-- Positions actually reported for a sequence of timeupdate ticks, starting
from a given lastReportedTime. -/
def runTicks (lastReportedTime : Int) : List Int → List Int
  | [] => []
  | p :: ps =>
    let r := onTime lastReportedTime p
    if r.1 then p :: runTicks r.2 ps else runTicks r.2 ps

/-- Seek handler from part_003 lines 319-331: onProgress is called with the
seek target unconditionally and lastReportedTime is reset to it. -/
def handleSeek (lastReportedTime : Int) (targetTime : Int) : Bool × Int :=
  (true, targetTime)

/-- Reported positions of a playback session: WatchPage issues
handleProgressUpdate(0) when the page renders (session-start write), part_003
line 238 resets lastReportedTime to 0 on a new video, then ticks run through
onTime. -/
def runSession (ticks : List Int) : List Int :=
  0 :: runTicks 0 ticks

/-- FeedCursor: the pagination state of one infinite-scroll feed; page is the
index of the next page to request (the code of part_007 stores the last
fetched index and the intersection observer passes page + 1 to
fetchMoreVideos). -/
structure FeedCursor where
  page : Nat
  items : List Nat
  hasMore : Bool
deriving DecidableEq

/-- One load-more step of the channel-videos feed, part_007 lines 91-127
together with its caller at lines 137-142: the guard returns unchanged when
the cursor is exhausted; a zero-length page only marks exhaustion; otherwise
returned items not already present are appended and a short page marks
exhaustion. The caller advances the page index before the fetch. -/
def fetchMoreVideos (pageSize : Nat) (fetchPage : Nat → List Nat) (c : FeedCursor) : FeedCursor :=
  if c.hasMore then
    let moreVideos := fetchPage c.page
    if moreVideos.length = 0 then
      { c with page := c.page + 1, hasMore := false }
    else
      { page := c.page + 1,
        items := c.items ++ moreVideos.filter (fun v => !(c.items.contains v)),
        hasMore := if moreVideos.length < pageSize then false else c.hasMore }
  else c

/-- Load-more step with a fallible page fetch (part_007 lines 122-126,
CommentSection.tsx lines 77-81): the caller has already advanced the page
index (part_007 lines 139-141, CommentSection.tsx lines 84-88); the catch
leaves items and hasMore untouched and does not roll the page index back. -/
def fetchMoreVideosF (pageSize : Nat) (fetchPage : Nat → Option (List Nat))
    (c : FeedCursor) : FeedCursor :=
  if c.hasMore then
    match fetchPage c.page with
    | Option.none => { c with page := c.page + 1 }
    | Option.some moreVideos =>
      if moreVideos.length = 0 then
        { c with page := c.page + 1, hasMore := false }
      else
        { page := c.page + 1,
          items := c.items ++ moreVideos.filter (fun v => !(c.items.contains v)),
          hasMore := if moreVideos.length < pageSize then false else c.hasMore }
  else c

/-- Offset-paged source holding exactly the 25 items 0..24 with page size 10
(the List-page shape of spec section 6). -/
def src25 (page : Nat) : List Nat :=
  ((List.range 25).drop (10 * page)).take 10

/-- Comment feed accumulation, CommentSection.tsx line 76: a follow-up page is
appended to the previous items with no duplicate filtering
(setComments(prev ... [...prev, ...enriched])). -/
def fetchCommentsAppend (prev enriched : List Nat) : List Nat :=
  prev ++ enriched

/-- Merged subscription feed, SubscriptionsPage.tsx lines 84-90: flatten the
per-channel result lists and sort descending by upload_time with the stable
Array.prototype.sort; items are modelled by their timestamps. -/
def interleavedVideos (results : List (List Nat)) : List Nat :=
  (results.flatten).mergeSort (fun a b => decide (b ≤ a))

/-- SubscriptionsPage component state touched by the feed logic
(SubscriptionsPage.tsx lines 20-26): visible videos, the locally cached merged
list, the slice page and the hasMore flag. -/
structure SubscriptionsFeedState where
  page : Nat
  videos : List Nat
  allChannelVideos : List Nat
  hasMore : Bool
deriving DecidableEq

/-- Initial load of SubscriptionsPage (fetchData, lines 54-108):
listSubscriptions page 0 size 50, then getChannelVideos page 0 size 100 per
subscription, merged once; the visible list is the first PAGE_SIZE = 12 slice
and hasMore is whether the merged list is longer than 12. Each channel's
upstream catalog is an inner list and the gateway's offset paging returns its
first requested-size prefix. -/
def fetchData (subscriptionVideos : List (List Nat)) : SubscriptionsFeedState :=
  let subs := subscriptionVideos.take 50
  let results := subs.map (fun channelVideos => channelVideos.take 100)
  let interleaved := interleavedVideos results
  { page := 0,
    videos := interleaved.take 12,
    allChannelVideos := interleaved,
    hasMore := decide (12 < interleaved.length) }

/-- Load-more effect of SubscriptionsPage (lines 111-126) together with the
observer that increments page (lines 35-38): slice the cached merged list from
start = page * 12 to start + 12, append it to the visible list when non-empty,
and clear hasMore when the slice's end reaches or passes the cached length.
No remote call occurs: the step is a pure function of the local state. -/
def loadMore (s : SubscriptionsFeedState) : SubscriptionsFeedState :=
  let page := s.page + 1
  let start := page * 12
  let stop := start + 12
  let nextVideos := (s.allChannelVideos.drop start).take 12
  { page := page,
    videos := if 0 < nextVideos.length then s.videos ++ nextVideos else s.videos,
    allChannelVideos := s.allChannelVideos,
    hasMore := if s.allChannelVideos.length ≤ stop then false else s.hasMore }

/-- C1: for every toggle request on a subject (video or comment), the computed
next reaction equals none when the requested kind equals the subject's current
reaction, and equals the requested kind otherwise; the comment handler's
optimistic update stores exactly this next reaction. -/
theorem C1_toggle_rule :
    (∀ (current : ReactionType) (type : ReactionKind),
        (nextReaction current type = ReactionType.none ↔ current = type.toReactionType)) ∧
    (∀ (current : ReactionType) (type : ReactionKind),
        current ≠ type.toReactionType → nextReaction current type = type.toReactionType) ∧
    (∀ (c : CommentWithExtras) (type : ReactionKind),
        (applyReactionDelta c type).userReaction = nextReaction c.userReaction type) := by
  refine ⟨?_, ?_, ?_⟩
  · intro current type
    cases current <;> cases type <;> simp [nextReaction, ReactionKind.toReactionType]
  · intro current type h
    unfold nextReaction
    rw [if_neg (fun hc => h hc)]
  · intro c type
    rfl

/-- C1 witness: a toggle of like on a subject whose current reaction is none
yields like. -/
theorem C1_witness :
    nextReaction ReactionType.none ReactionKind.like = ReactionType.like :=
  C1_toggle_rule.2.1 ReactionType.none ReactionKind.like (by decide)

/-- C2 counterexample: for a video subject with current reaction none and
counts (5, 2), the local state while the remote setReaction call is in flight
still shows likeCount 5, not the delta-applied 6 the claim requires; WatchPage
only updates counters after the remote call resolves. -/
theorem C2_counterexample :
    ¬ ((handleReactionPending ⟨ReactionType.none, 5, 2⟩ ReactionKind.like).like_count =
        (specCounterDelta ReactionType.none
          (nextReaction ReactionType.none ReactionKind.like) 5 2).1) := by
  decide

/-- C2 amended: the counter delta is applied synchronously before the remote
call resolves for comment subjects (and agrees with the spec's delta rule);
for video subjects no local counter change happens before the remote
setReaction call resolves - the pending state equals the pre-toggle state. -/
theorem C2_amended :
    (∀ (c : CommentWithExtras) (type : ReactionKind),
        ((applyReactionDelta c type).like_count, (applyReactionDelta c type).dislike_count) =
          specCounterDelta c.userReaction (nextReaction c.userReaction type)
            c.like_count c.dislike_count) ∧
    (∀ (s : VideoReactionState) (type : ReactionKind),
        handleReactionPending s type = s) := by
  refine ⟨?_, fun _ _ => rfl⟩
  intro c type
  cases hc : c.userReaction <;> cases type <;>
    simp [applyReactionDelta, nextReaction, ReactionKind.toReactionType, specCounterDelta, hc]

/-- C7 counterexample: toggling like on the comment (id 0, counts 0/0,
reaction none) with the remote setReaction call failing and the recovery
fetchComments(0, true) itself failing (or skipped by the isLoading guard)
leaves exactly the un-rolled-back optimistic state - likeCount 1, reaction
like - which is not the pre-toggle state, and no authoritative state was
delivered; so the final state is neither rollback nor re-fetch. -/
theorem C7_counterexample :
    handleCommentReactionFinal [⟨0, 0, 0, ReactionType.none⟩] 0 ReactionKind.like false
        Option.none =
      handleCommentReactionOptimistic [⟨0, 0, 0, ReactionType.none⟩] 0 ReactionKind.like ∧
    handleCommentReactionOptimistic [⟨0, 0, 0, ReactionType.none⟩] 0 ReactionKind.like ≠
      [⟨0, 0, 0, ReactionType.none⟩] := by
  refine ⟨rfl, by decide⟩

/-- C7 amended: on a failed remote setReaction call the video handler keeps
exactly the pre-toggle state (no optimistic update was applied); the comment
handler re-fetches, and when that re-fetch delivers, the final state is the
freshly re-fetched authoritative state, but when the re-fetch itself fails or
is skipped by the isLoading guard, the un-rolled-back optimistic state
remains; so neither recovery policy is applied uniformly and the
never-optimistic guarantee holds only when the recovery fetch succeeds. -/
theorem C7_amended :
    (∀ (comments : List CommentWithExtras) (commentId : Nat) (type : ReactionKind)
        (refetched : List CommentWithExtras),
        handleCommentReactionFinal comments commentId type false (Option.some refetched) =
          refetched) ∧
    (∀ (comments : List CommentWithExtras) (commentId : Nat) (type : ReactionKind),
        handleCommentReactionFinal comments commentId type false Option.none =
          handleCommentReactionOptimistic comments commentId type) ∧
    (∀ (s : VideoReactionState) (type : ReactionKind) (refreshed : VideoReactionState),
        handleReactionFinal s type false refreshed = s) :=
  ⟨fun _ _ _ _ => rfl, fun _ _ _ => rfl, fun _ _ _ => rfl⟩

/-- C9 counterexample: from the starting state likeCount 0, dislikeCount 0,
currentReaction like (all counts non-negative, as the claim allows), toggling
like decrements likeCount to -1, so non-negativity is not preserved. -/
theorem C9_counterexample :
    ¬ (0 ≤ (applyReactionDelta ⟨7, 0, 0, ReactionType.like⟩ ReactionKind.like).like_count) := by
  decide

/-- C9 amended: the optimistic update preserves non-negative counters provided
the starting state is consistent - an active reaction is counted in its own
counter (currentReaction like implies likeCount at least 1, and dislike
likewise); after the update at most one of like and dislike is active. -/
theorem C9_amended (c : CommentWithExtras) (type : ReactionKind)
    (hlike : 0 ≤ c.like_count) (hdislike : 0 ≤ c.dislike_count)
    (hactiveLike : c.userReaction = ReactionType.like → 1 ≤ c.like_count)
    (hactiveDislike : c.userReaction = ReactionType.dislike → 1 ≤ c.dislike_count) :
    0 ≤ (applyReactionDelta c type).like_count ∧
    0 ≤ (applyReactionDelta c type).dislike_count ∧
    ¬ ((applyReactionDelta c type).userReaction = ReactionType.like ∧
        (applyReactionDelta c type).userReaction = ReactionType.dislike) := by
  cases hc : c.userReaction <;> cases type <;>
    simp [applyReactionDelta, nextReaction, ReactionKind.toReactionType, hc]
      at hactiveLike hactiveDislike ⊢ <;>
    omega

/-- C9 witness: the spec's toggle-switch example, currentReaction like with
counts (5, 2), toggling dislike: the updated counters stay non-negative and at
most one reaction is active. -/
theorem C9_witness :
    0 ≤ (applyReactionDelta ⟨1, 5, 2, ReactionType.like⟩ ReactionKind.dislike).like_count ∧
    0 ≤ (applyReactionDelta ⟨1, 5, 2, ReactionType.like⟩ ReactionKind.dislike).dislike_count ∧
    ¬ ((applyReactionDelta ⟨1, 5, 2, ReactionType.like⟩ ReactionKind.dislike).userReaction =
          ReactionType.like ∧
        (applyReactionDelta ⟨1, 5, 2, ReactionType.like⟩ ReactionKind.dislike).userReaction =
          ReactionType.dislike) :=
  C9_amended ⟨1, 5, 2, ReactionType.like⟩ ReactionKind.dislike (by decide) (by decide)
    (by decide) (by decide)

/-- C3 counterexample: with lastReportedPosition 0, the ticks 1, 3, 4, 7, 12
do not produce writes at 7 and 12: after the write at 7 the tick at 12 has
distance exactly 5, which is not strictly greater than 5, so it is throttled. -/
theorem C3_counterexample :
    runTicks 0 [1, 3, 4, 7, 12] ≠ [7, 12] := by
  decide

/-- C3 amended: onTick emits a remote progress write if and only if the
distance to lastReportedPosition strictly exceeds 5, resetting
lastReportedPosition to the tick position exactly on emission; the tick
sequence 1, 3, 4, 7, 12 therefore produces exactly one tick-driven write, at
position 7, in addition to the session-start write at 0; and a seek emits a
write unconditionally and resets lastReportedPosition to the seek target. -/
theorem C3_amended :
    (∀ (last p : Int), ((onTime last p).1 = true ↔ 5 < |p - last|)) ∧
    (∀ (last p : Int), (onTime last p).2 = if 5 < |p - last| then p else last) ∧
    runTicks 0 [1, 3, 4, 7, 12] = [7] ∧
    runSession [1, 3, 4, 7, 12] = [0, 7] ∧
    (∀ (last target : Int), handleSeek last target = (true, target)) := by
  refine ⟨?_, ?_, by decide, by decide, fun _ _ => rfl⟩
  · intro last p
    unfold onTime
    by_cases h : (5 : Int) < |p - last| <;> simp [h]
  · intro last p
    unfold onTime
    by_cases h : (5 : Int) < |p - last| <;> simp [h]

unseal List.merge List.mergeSort in
/-- C6: the merged subscription feed is the flattened union of the per-source
item lists sorted descending by timestamp; for sources with timestamps
(10, 5, 1), (9, 4), (8) the merged feed is exactly (10, 9, 8, 5, 4, 1). -/
theorem C6_merged_feed :
    interleavedVideos [[10, 5, 1], [9, 4], [8]] = [10, 9, 8, 5, 4, 1] ∧
    (∀ (results : List (List Nat)),
        (interleavedVideos results).Perm results.flatten ∧
        (interleavedVideos results).Pairwise (fun a b => b ≤ a)) := by
  refine ⟨by rfl, ?_⟩
  intro results
  refine ⟨List.mergeSort_perm _ _, ?_⟩
  have h := @List.sorted_mergeSort Nat (fun a b => decide (b ≤ a))
    (fun a b c hab hbc => by simp only [decide_eq_true_eq] at *; omega)
    (fun a b => by simp only [Bool.or_eq_true, decide_eq_true_eq]; omega)
    results.flatten
  exact h.imp (fun hab => of_decide_eq_true hab)

/-- C10: a subscriptions load-more step is local: it leaves the cached merged
list unchanged, appends exactly the next 12-item slice of the cache to the
visible list, clears hasMore exactly when the slice's end index reaches or
passes the cached length (or it was already cleared), and shows only items
already visible or cached; the initial load caches a merge of at most the
first 100 videos of each of at most the first 50 subscriptions, makes the
first 12 visible, and sets hasMore exactly when more than 12 are cached. -/
theorem C10_local_load_more :
    (∀ (s : SubscriptionsFeedState),
        (loadMore s).allChannelVideos = s.allChannelVideos ∧
        (loadMore s).videos =
          s.videos ++ ((s.allChannelVideos.drop ((s.page + 1) * 12)).take 12) ∧
        ((loadMore s).hasMore = false ↔
          (s.allChannelVideos.length ≤ (s.page + 1) * 12 + 12 ∨ s.hasMore = false)) ∧
        (loadMore s).page = s.page + 1) ∧
    (∀ (s : SubscriptionsFeedState) (v : Nat),
        v ∈ (loadMore s).videos → v ∈ s.videos ∨ v ∈ s.allChannelVideos) ∧
    (∀ (subscriptionVideos : List (List Nat)),
        (fetchData subscriptionVideos).allChannelVideos.Perm
          (((subscriptionVideos.take 50).map (fun l => l.take 100)).flatten) ∧
        (fetchData subscriptionVideos).videos =
          (fetchData subscriptionVideos).allChannelVideos.take 12 ∧
        ((fetchData subscriptionVideos).hasMore = true ↔
          12 < (fetchData subscriptionVideos).allChannelVideos.length)) := by
  have hvid : ∀ (s : SubscriptionsFeedState),
      (loadMore s).videos =
        s.videos ++ ((s.allChannelVideos.drop ((s.page + 1) * 12)).take 12) := by
    intro s
    show (if 0 < ((s.allChannelVideos.drop ((s.page + 1) * 12)).take 12).length
        then s.videos ++ ((s.allChannelVideos.drop ((s.page + 1) * 12)).take 12)
        else s.videos) = _
    by_cases h : 0 < ((s.allChannelVideos.drop ((s.page + 1) * 12)).take 12).length
    · rw [if_pos h]
    · rw [if_neg h]
      have hz : ((s.allChannelVideos.drop ((s.page + 1) * 12)).take 12) = [] :=
        List.length_eq_zero.mp (by omega)
      rw [hz, List.append_nil]
  refine ⟨?_, ?_, ?_⟩
  · intro s
    refine ⟨rfl, hvid s, ?_, rfl⟩
    show (if s.allChannelVideos.length ≤ (s.page + 1) * 12 + 12 then false
        else s.hasMore) = false ↔ _
    by_cases h : s.allChannelVideos.length ≤ (s.page + 1) * 12 + 12 <;> simp [h]
  · intro s v hv
    rw [hvid s] at hv
    rcases List.mem_append.mp hv with h | h
    · exact Or.inl h
    · exact Or.inr (List.drop_subset _ _ (List.take_subset _ _ h))
  · intro subscriptionVideos
    exact ⟨List.mergeSort_perm _ _, rfl, decide_eq_true_iff⟩

/-- C10 witness: a concrete load-more step on a state whose cache holds two
items and whose visible list holds one shows the surviving visible item was
already visible or cached. -/
theorem C10_witness :
    1 ∈ ([1] : List Nat) ∨ 1 ∈ ([1, 2] : List Nat) :=
  C10_local_load_more.2.1 ⟨0, [1], [1, 2], true⟩ 1 (by decide)

/-- C4: loadNext marks the cursor exhausted exactly when the fetched page is
strictly shorter than pageSize (the zero-item page included, pageSize being
positive), or it was exhausted already; a source of exactly 25 items with
pageSize 10 yields pages of length 10, 10, 5, the cursor is exhausted after
the third loadNext with all 25 items accumulated, and a fourth loadNext is a
no-op. -/
theorem C4_exhaustion :
    (∀ (pageSize : Nat) (fetchPage : Nat → List Nat) (c : FeedCursor), 0 < pageSize →
        ((fetchMoreVideos pageSize fetchPage c).hasMore = false ↔
          (c.hasMore = false ∨ (fetchPage c.page).length < pageSize))) ∧
    ((src25 0).length = 10 ∧ (src25 1).length = 10 ∧ (src25 2).length = 5) ∧
    ((fetchMoreVideos 10 src25 ⟨0, [], true⟩).hasMore = true ∧
      (fetchMoreVideos 10 src25 (fetchMoreVideos 10 src25 ⟨0, [], true⟩)).hasMore = true ∧
      (fetchMoreVideos 10 src25 (fetchMoreVideos 10 src25
        (fetchMoreVideos 10 src25 ⟨0, [], true⟩))).hasMore = false ∧
      (fetchMoreVideos 10 src25 (fetchMoreVideos 10 src25
        (fetchMoreVideos 10 src25 ⟨0, [], true⟩))).items = List.range 25 ∧
      fetchMoreVideos 10 src25 (fetchMoreVideos 10 src25 (fetchMoreVideos 10 src25
        (fetchMoreVideos 10 src25 ⟨0, [], true⟩))) =
        fetchMoreVideos 10 src25 (fetchMoreVideos 10 src25
          (fetchMoreVideos 10 src25 ⟨0, [], true⟩))) := by
  refine ⟨?_, by decide, by decide⟩
  intro pageSize fetchPage c hps
  unfold fetchMoreVideos
  cases hc : c.hasMore
  · simp [hc]
  · simp only [if_true]
    by_cases h0 : (fetchPage c.page).length = 0
    · rw [if_pos h0]
      simp [h0]
      omega
    · rw [if_neg h0]
      by_cases hlt : (fetchPage c.page).length < pageSize
      · simp [hlt]
      · simp [hlt, hc]

/-- C4 witness: the exhaustion rule applied to the 25-item source's first
page. -/
theorem C4_witness :
    ((fetchMoreVideos 10 src25 ⟨0, [], true⟩).hasMore = false ↔
      ((⟨0, [], true⟩ : FeedCursor).hasMore = false ∨
        (src25 (⟨0, [], true⟩ : FeedCursor).page).length < 10)) :=
  C4_exhaustion.1 10 src25 ⟨0, [], true⟩ (by decide)

/-- Helper: one successful loadNext step keeps the accumulated items free of
duplicates, because identities already present are filtered out before the
append. -/
theorem fetchMoreVideos_nodup (pageSize : Nat) (fetchPage : Nat → List Nat) (c : FeedCursor)
    (hc : c.items.Nodup) (hp : (fetchPage c.page).Nodup) :
    (fetchMoreVideos pageSize fetchPage c).items.Nodup := by
  unfold fetchMoreVideos
  cases hcm : c.hasMore
  · exact hc
  · simp only [if_true]
    by_cases h0 : (fetchPage c.page).length = 0
    · rw [if_pos h0]; exact hc
    · rw [if_neg h0]
      refine List.Nodup.append hc (hp.filter _) ?_
      intro a ha hm
      have h2 := (List.mem_filter.mp hm).2
      rw [Bool.not_eq_true'] at h2
      have h1 : c.items.elem a = true := List.elem_iff.mpr ha
      rw [show c.items.contains a = c.items.elem a from rfl] at h2
      rw [h2] at h1
      exact Bool.false_ne_true h1

/-- C5 counterexample: the comment feed appends follow-up pages with no
duplicate filtering, so the overlapping pages (1, 2) then (2, 3) leave the
identity 2 twice in the cumulative list. -/
theorem C5_counterexample :
    ¬ (fetchCommentsAppend (fetchCommentsAppend [] [1, 2]) [2, 3]).Nodup := by
  decide

/-- C5 amended: for the channel-videos cursor, any sequence of loadNext calls
against per-call page sources (the upstream may shift arbitrarily between
calls) keeps each item identity at most once in the cumulative items, provided
each individually returned page is duplicate-free; the comment feed appends
pages unfiltered and does not enjoy this invariant. -/
theorem C5_amended (pageSize : Nat) (fetches : List (Nat → List Nat)) (c : FeedCursor)
    (hc : c.items.Nodup) (hf : ∀ f ∈ fetches, ∀ p, (f p).Nodup) :
    (fetches.foldl (fun acc f => fetchMoreVideos pageSize f acc) c).items.Nodup := by
  induction fetches generalizing c with
  | nil => exact hc
  | cons f fs ih =>
    simp only [List.foldl_cons]
    exact ih (fetchMoreVideos pageSize f c)
      (fetchMoreVideos_nodup pageSize f c hc (hf f (List.mem_cons_self f fs) c.page))
      (fun g hg p => hf g (List.mem_cons_of_mem f hg) p)

/-- C5 witness: two overlapping pages (1, 2) then (2, 3) fed to the
deduplicating cursor leave a duplicate-free cumulative list. -/
theorem C5_witness :
    (([fun _ => [1, 2], fun _ => [2, 3]] : List (Nat → List Nat)).foldl
        (fun acc f => fetchMoreVideos 10 f acc) ⟨0, [], true⟩).items.Nodup :=
  C5_amended 10 [fun _ => [1, 2], fun _ => [2, 3]] ⟨0, [], true⟩ (by decide)
    (by
      intro f hfm p
      rcases List.mem_cons.mp hfm with h | h
      · subst h; exact (by decide : ([1, 2] : List Nat).Nodup)
      · rcases List.mem_cons.mp h with h2 | h2
        · subst h2; exact (by decide : ([2, 3] : List Nat).Nodup)
        · exact absurd h2 (List.not_mem_nil f))

/-- C8 counterexample: a failed page fetch does not leave the cursor exactly
as it was: starting from page index 0 with a failing fetch, the page index has
been advanced to 1 (the caller increments it before the fetch and the catch
does not roll it back). -/
theorem C8_counterexample :
    fetchMoreVideosF 10 (fun _ => Option.none) ⟨0, [], true⟩ ≠ (⟨0, [], true⟩ : FeedCursor) := by
  decide

/-- C8 amended: a failed page fetch appends no items and does not mark the
cursor exhausted, but the page index has already been advanced by the caller
and is not rolled back, so a retry requests the following page rather than the
same one. -/
theorem C8_amended (pageSize : Nat) (fetchPage : Nat → Option (List Nat)) (c : FeedCursor)
    (hfail : fetchPage c.page = Option.none) :
    (fetchMoreVideosF pageSize fetchPage c).items = c.items ∧
    (fetchMoreVideosF pageSize fetchPage c).hasMore = c.hasMore ∧
    (fetchMoreVideosF pageSize fetchPage c).page =
      (if c.hasMore then c.page + 1 else c.page) := by
  unfold fetchMoreVideosF
  cases hcm : c.hasMore <;> simp [hcm, hfail]

/-- C8 witness: a concrete failing fetch on a one-item cursor keeps items and
hasMore while advancing the page index. -/
theorem C8_witness :
    (fetchMoreVideosF 10 (fun _ => Option.none) ⟨0, [5], true⟩).items = [5] ∧
    (fetchMoreVideosF 10 (fun _ => Option.none) ⟨0, [5], true⟩).hasMore = true ∧
    (fetchMoreVideosF 10 (fun _ => Option.none) ⟨0, [5], true⟩).page =
      (if (true : Bool) then 0 + 1 else 0) :=
  C8_amended 10 (fun _ => Option.none) ⟨0, [5], true⟩ rfl

end StreamWeaver
